import Mathlib

/-!
Verification of the workflow execution engine of the twitch dashboard assistant
(src/client/workflow_engine.py and src/client/workflow_execution.py).

The Python code is shallowly embedded: pydantic models become structures,
Python dicts become association lists with first-match lookup and
update-in-place insertion (dict keys stay unique), JSON values become the
inductive type JVal, and the asyncio runner loops become fuel-based
recursion where the fuel mirrors the loop variant that the code itself
maintains (remaining steps, remaining retries).  Wall-clock values produced
by datetime.now() and uuid.uuid4() are threaded in as explicit inputs.
The external action boundary (integration_manager.execute_action) is an
oracle parameter, as the engine itself treats it as an opaque call.
-/

set_option maxRecDepth 4000

/-- JSON-like values, modelling the Python dict/list/str/int/bool/None data
that flows through workflow parameters, variables and results. -/
inductive JVal where
  | null : JVal
  | bool (b : Bool) : JVal
  | num (n : Int) : JVal
  | str (s : String) : JVal
  | arr (elems : List JVal) : JVal
  | obj (fields : List (String × JVal)) : JVal
deriving Repr

/-- Python dict assignment d[k] = v on an association list: replace the
binding in place when the key exists, append otherwise. -/
def dictInsert {β : Type} (k : String) (v : β) : List (String × β) → List (String × β)
  | [] => [(k, v)]
  | (k', v') :: rest => if k' = k then (k, v) :: rest else (k', v') :: dictInsert k v rest

/-- Python del d[k]: drop the (first) binding of k. -/
def dictRemove {β : Type} (k : String) : List (String × β) → List (String × β)
  | [] => []
  | (k', v') :: rest => if k' = k then rest else (k', v') :: dictRemove k rest

/-- A successful lookup returns one of the list's bindings. -/
theorem lookup_mem {β : Type} {k : String} {v : β} :
    ∀ {l : List (String × β)}, l.lookup k = some v → (k, v) ∈ l := by
  intro l
  induction l with
  | nil => intro h; simp [List.lookup] at h
  | cons p rest ih =>
    obtain ⟨a, b⟩ := p
    intro h
    rw [List.lookup] at h
    by_cases hk : k = a
    · rw [beq_iff_eq.mpr hk] at h
      simp at h
      subst hk
      subst h
      exact List.mem_cons_self _ _
    · rw [beq_false_of_ne hk] at h
      simp only at h
      exact List.mem_cons_of_mem _ (ih h)

/-- Every binding of dictInsert k v l is either (k, v) or a binding of l. -/
theorem dictInsert_mem {β : Type} {k : String} {v : β} {p : String × β} :
    ∀ {l : List (String × β)}, p ∈ dictInsert k v l → p = (k, v) ∨ p ∈ l := by
  intro l
  induction l with
  | nil => intro h; simp [dictInsert] at h; left; exact h
  | cons q rest ih =>
    obtain ⟨a, b⟩ := q
    intro h
    simp only [dictInsert] at h
    by_cases hq : a = k
    · simp only [hq, if_pos rfl] at h
      rcases List.mem_cons.mp h with h | h
      · left; exact h
      · right; exact List.mem_cons_of_mem _ h
    · simp only [hq, if_neg hq] at h
      rcases List.mem_cons.mp h with h | h
      · right; exact h ▸ List.mem_cons_self _ _
      · rcases ih h with h' | h'
        · left; exact h'
        · right; exact List.mem_cons_of_mem _ h'

/-- Every binding of dictRemove k l is a binding of l. -/
theorem dictRemove_mem {β : Type} {k : String} {p : String × β} :
    ∀ {l : List (String × β)}, p ∈ dictRemove k l → p ∈ l := by
  intro l
  induction l with
  | nil => intro h; simp [dictRemove] at h
  | cons q rest ih =>
    obtain ⟨a, b⟩ := q
    intro h
    simp only [dictRemove] at h
    by_cases hq : a = k
    · simp only [hq, if_pos rfl] at h
      exact List.mem_cons_of_mem _ h
    · simp only [if_neg hq] at h
      rcases List.mem_cons.mp h with h | h
      · exact h ▸ List.mem_cons_self _ _
      · exact List.mem_cons_of_mem _ (ih h)

/-- WorkflowStatus enum (workflow_engine.py). -/
inductive WorkflowStatus where
  | not_started
  | running
  | paused
  | completed
  | failed
  | cancelled
deriving DecidableEq, Repr

/-- StateAction model: the (service, method, params) triple of a state. -/
structure StateAction where
  service : String
  method : String
  params : List (String × JVal) := []

/-- WorkflowState model (workflow_engine.py).  Timestamps are not part of
states; retry_count is the unused declared field of the source model. -/
structure WorkflowState where
  name : String
  description : Option String := none
  action : StateAction
  transitions : List (String × String) := []
  timeout_seconds : Option Int := none
  on_timeout : Option String := none
  retry_count : Int := 0
  retry_delay_seconds : Int := 1
  max_retries : Nat := 0

/-- WorkflowDefinition model (workflow_engine.py).  The created_at and
updated_at datetime metadata fields are irrelevant to every operation
modelled here and are omitted. -/
structure WorkflowDefinition where
  id : String
  name : String
  description : Option String := none
  initial_state : String
  states : List WorkflowState
  version : String := "1.0"
  author : Option String := none
  tags : List String := []
  triggers : List String := []

/-- Truthiness of a Python Optional[str]: None and the empty string are falsy. -/
def optTruthy : Option String → Bool
  | none => false
  | some s => s ≠ ""

/-- The two raises WorkflowDefinition.validate_states can end in as
executed: an empty states list raises ValueError at line 68; any other
states list reaches line 72, where values.get raises AttributeError,
because under pydantic v2 a field validator's second parameter is a
ValidationInfo object, which has no .get method.  The validator never
returns normally, so the membership checks in its remaining lines are dead
code. -/
inductive ValidateOutcome where
  | value_error (msg : String)
  | attribute_error
deriving DecidableEq, Repr

/-- WorkflowDefinition.validate_states as executed (pydantic v2): the raise
it ends in, a function of the states field alone — the ValidationInfo
argument is what the crash consumes, before initial_state is ever read. -/
def validate_states (states : List WorkflowState) : ValidateOutcome :=
  if states.isEmpty then .value_error "Workflow must have at least one state"
  else .attribute_error

/-- pydantic model_validate turns a ValueError raised inside a validator
into a validation failure and lets the AttributeError propagate as an
ordinary exception; either way the construction of a WorkflowDefinition
from a candidate document fails, so under the executed code no candidate
definition is ever accepted. -/
def model_validate_accepts (wf : WorkflowDefinition) : Bool :=
  match validate_states wf.states with
  | .value_error _ => false
  | .attribute_error => false

/-- The registry-facing mutable state of WorkflowEngine: the definition
registry and the event-subscription index. -/
structure WorkflowEngineState where
  workflow_registry : List (String × WorkflowDefinition) := []
  event_subscriptions : List (String × List String) := []

/-- One trigger registration step inside register_workflow: create the
subscription set if missing, then add the workflow id to it. -/
def addSubscription (subs : List (String × List String)) (trigger : String)
    (id : String) : List (String × List String) :=
  match subs.lookup trigger with
  | none => dictInsert trigger [id] subs
  | some ids => dictInsert trigger (if ids.contains id then ids else ids ++ [id]) subs

/-- WorkflowEngine.register_workflow: index each trigger, store (overwriting
any definition with the same id) and return True unconditionally. -/
def register_workflow (engine : WorkflowEngineState) (workflow : WorkflowDefinition) :
    Bool × WorkflowEngineState :=
  let subs := workflow.triggers.foldl
    (fun s t => addSubscription s t workflow.id) engine.event_subscriptions
  (true,
   { workflow_registry := dictInsert workflow.id workflow engine.workflow_registry,
     event_subscriptions := subs })

/-- WorkflowEngine.unregister_workflow: false when the id is unknown,
otherwise remove the id from each of the definition's trigger sets and
delete the registry entry. -/
def unregister_workflow (engine : WorkflowEngineState) (workflow_id : String) :
    Bool × WorkflowEngineState :=
  match engine.workflow_registry.lookup workflow_id with
  | none => (false, engine)
  | some wf =>
    let subs := wf.triggers.foldl
      (fun s t =>
        match s.lookup t with
        | none => s
        | some ids =>
          if ids.contains workflow_id then
            dictInsert t (ids.filter (fun i => i ≠ workflow_id)) s
          else s)
      engine.event_subscriptions
    (true,
     { workflow_registry := dictRemove workflow_id engine.workflow_registry,
       event_subscriptions := subs })

/-- WorkflowEngine.get_workflow. -/
def get_workflow (engine : WorkflowEngineState) (workflow_id : String) :
    Option WorkflowDefinition :=
  engine.workflow_registry.lookup workflow_id

/-- WorkflowEngine.load_workflow_from_file, given the already-parsed JSON
document as a candidate definition: model_validate runs validate_states,
whose ValueError-turned-ValidationError or escaping AttributeError is
caught by the handler at lines 791-793, yielding None with no mutation;
the register branch would be reached only were validation to accept. -/
def load_workflow (engine : WorkflowEngineState) (wf : WorkflowDefinition) :
    Option String × WorkflowEngineState :=
  if model_validate_accepts wf then
    let r := register_workflow engine wf
    (if r.1 then some wf.id else none, r.2)
  else
    (none, engine)

/-- The registry-mutating operations a caller can perform: loading a
candidate definition (validation included) and unregistration. -/
inductive RegOp where
  | load (wf : WorkflowDefinition)
  | unregister (id : String)

/-- Apply one registry operation. -/
def applyRegOp (e : WorkflowEngineState) : RegOp → WorkflowEngineState
  | .load wf => (load_workflow e wf).2
  | .unregister id => (unregister_workflow e id).2

/-- Run a sequence of registry operations from a state. -/
def runRegOps (e : WorkflowEngineState) (ops : List RegOp) : WorkflowEngineState :=
  ops.foldl applyRegOp e

/-- No candidate definition passes pydantic validation: both raise paths of
the executed validator make model_validate fail. -/
theorem model_validate_accepts_false (wf : WorkflowDefinition) :
    model_validate_accepts wf = false := by
  unfold model_validate_accepts
  cases validate_states wf.states <;> rfl

/-- A lookup into a cons cell, as an if on key equality. -/
theorem lookup_cons {β : Type} (a k : String) (b : β) (rest : List (String × β)) :
    ((a, b) :: rest).lookup k = if k = a then some b else rest.lookup k := by
  simp [List.lookup]
  by_cases h : k = a
  · simp [h]
  · simp [h, beq_false_of_ne h]

/-- Looking up the inserted key finds the inserted value. -/
theorem dictInsert_lookup_self {β : Type} (k : String) (v : β) :
    ∀ (l : List (String × β)), (dictInsert k v l).lookup k = some v := by
  intro l
  induction l with
  | nil => simp [dictInsert, List.lookup]
  | cons q rest ih =>
    obtain ⟨a, b⟩ := q
    by_cases ha : a = k
    · simp [dictInsert, ha, lookup_cons]
    · simp only [dictInsert, if_neg ha]
      rw [lookup_cons, if_neg (fun h => ha h.symm)]
      exact ih

/-- Looking up any other key is unaffected by an insertion. -/
theorem dictInsert_lookup_other {β : Type} {k k' : String} (v : β) (h : k' ≠ k) :
    ∀ (l : List (String × β)), (dictInsert k v l).lookup k' = l.lookup k' := by
  intro l
  induction l with
  | nil => simp [dictInsert, List.lookup, beq_false_of_ne h]
  | cons q rest ih =>
    obtain ⟨a, b⟩ := q
    by_cases ha : a = k
    · subst ha
      show List.lookup k' (if a = a then (a, v) :: rest else (a, b) :: dictInsert a v rest) = _
      rw [if_pos rfl, lookup_cons, lookup_cons, if_neg h, if_neg h]
    · simp only [dictInsert, if_neg ha]
      rw [lookup_cons, lookup_cons]
      by_cases hk' : k' = a
      · rw [if_pos hk', if_pos hk']
      · rw [if_neg hk', if_neg hk']
        exact ih

/-- addSubscription never removes an id from any trigger's subscription set. -/
theorem addSubscription_preserves {subs : List (String × List String)}
    {t' : String} {ids : List String} {id' : String} (t id : String)
    (hl : subs.lookup t' = some ids) (hm : id' ∈ ids) :
    ∃ ids', (addSubscription subs t id).lookup t' = some ids' ∧ id' ∈ ids' := by
  unfold addSubscription
  by_cases ht : t' = t
  · subst ht
    rw [hl]
    refine ⟨if ids.contains id then ids else ids ++ [id], dictInsert_lookup_self _ _ _, ?_⟩
    split
    · exact hm
    · exact List.mem_append_left _ hm
  · cases hlt : subs.lookup t with
    | none => exact ⟨ids, by rw [dictInsert_lookup_other _ ht, hl], hm⟩
    | some ids0 => exact ⟨ids, by rw [dictInsert_lookup_other _ ht, hl], hm⟩

/-- Folding addSubscription over a trigger list never removes an id from any
trigger's subscription set. -/
theorem foldl_addSubscription_preserves (id : String) :
    ∀ (triggers : List String) (subs : List (String × List String))
      (t' : String) (ids : List String) (id' : String),
      subs.lookup t' = some ids → id' ∈ ids →
      ∃ ids', (triggers.foldl (fun s t => addSubscription s t id) subs).lookup t' = some ids' ∧
        id' ∈ ids' := by
  intro triggers
  induction triggers with
  | nil => intro subs t' ids id' hl hm; exact ⟨ids, hl, hm⟩
  | cons t rest ih =>
    intro subs t' ids id' hl hm
    obtain ⟨ids1, hl1, hm1⟩ := addSubscription_preserves t id hl hm
    exact ih (addSubscription subs t id) t' ids1 id' hl1 hm1

/-- The empty engine state (a fresh WorkflowEngine). -/
def emptyEngine : WorkflowEngineState := {}

/-- A terminal logging state with no outgoing transitions. -/
def stateS : WorkflowState :=
  { name := "s", action := { service := "internal", method := "log" } }

/-- A structurally well-formed candidate definition: its initial_state
names its single state, which has no outgoing transitions — exactly the
kind of document the repository's own test expects to register
successfully. -/
def goodWF : WorkflowDefinition :=
  { id := "g", name := "Good", initial_state := "s", states := [stateS] }

/-- Every load is a no-op on the engine state, so the registry stays empty
over any operation sequence. -/
theorem runRegOps_registry_empty :
    ∀ (ops : List RegOp) (e : WorkflowEngineState), e.workflow_registry = [] →
      (runRegOps e ops).workflow_registry = [] := by
  intro ops
  induction ops with
  | nil => intro e h; exact h
  | cons op rest ih =>
    intro e h
    apply ih
    cases op with
    | load wf =>
      simp [applyRegOp, load_workflow, model_validate_accepts_false, h]
    | unregister id =>
      simp [applyRegOp, unregister_workflow, h, List.lookup]

/-- Claim C1 (code bug evidence): the executed validator raises on every
input — AttributeError for the well-formed goodWF (non-empty states reach
the values.get call on a pydantic-v2 ValidationInfo), ValueError for an
empty states list — so model_validate never accepts, every load yields
None and mutates nothing, the registry stays empty over any sequence of
operations, and a registry get after loading goodWF returns nothing even
though goodWF satisfies every membership requirement the claim names. -/
theorem claim1_validator_crashes :
    validate_states goodWF.states = ValidateOutcome.attribute_error ∧
    validate_states [] = ValidateOutcome.value_error "Workflow must have at least one state" ∧
    (∀ wf : WorkflowDefinition, model_validate_accepts wf = false) ∧
    (∀ (e : WorkflowEngineState) (wf : WorkflowDefinition), load_workflow e wf = (none, e)) ∧
    (∀ ops : List RegOp, (runRegOps emptyEngine ops).workflow_registry = []) ∧
    get_workflow (runRegOps emptyEngine [RegOp.load goodWF]) "g" = none := by
  refine ⟨rfl, rfl, model_validate_accepts_false, ?_, ?_, rfl⟩
  · intro e wf
    simp [load_workflow, model_validate_accepts_false]
  · intro ops
    exact runRegOps_registry_empty ops emptyEngine rfl

/-- Claim C10: register_workflow has no failing return path: it returns true
for every definition, stores the definition under its id (replacing any
previous definition with that id), and never removes an id from any
trigger's event-index entry (so entries added for a replaced definition's
triggers remain). -/
theorem claim10_register_always_true :
    ∀ (e : WorkflowEngineState) (wf : WorkflowDefinition),
      (register_workflow e wf).1 = true ∧
      get_workflow (register_workflow e wf).2 wf.id = some wf ∧
      (∀ (t : String) (ids : List String) (id' : String),
        e.event_subscriptions.lookup t = some ids → id' ∈ ids →
        ∃ ids', (register_workflow e wf).2.event_subscriptions.lookup t = some ids' ∧
          id' ∈ ids') := by
  intro e wf
  refine ⟨rfl, ?_, ?_⟩
  · unfold get_workflow register_workflow
    exact dictInsert_lookup_self _ _ _
  · intro t ids id' hl hm
    exact foldl_addSubscription_preserves wf.id wf.triggers e.event_subscriptions t ids id' hl hm

/-- Witness for claim C10 at concrete inputs: re-registering a definition
with the same id replaces it and keeps the old trigger index entry. -/
theorem claim10_register_always_true_witness :
    (register_workflow (register_workflow emptyEngine goodWF).2
      { goodWF with name := "Good2", triggers := ["other"] }).1 = true := by
  exact (claim10_register_always_true (register_workflow emptyEngine goodWF).2
    { goodWF with name := "Good2", triggers := ["other"] }).1

/-- ExecutionResult enum (workflow_execution.py), carrying the payload the
runner actually consumes from the execution-result dict: the error message
for ERROR and the event name for CONDITIONAL. -/
inductive ExecResult where
  | success
  | error (msg : String)
  | timeout
  | conditional (event : String)
deriving DecidableEq, Repr

/-- One attempt at executing a workflow step, as seen by the retry loop of
WorkflowExecutionEnhancer._execute_workflow_steps: the call either raises
or returns a classified result. -/
inductive StepAttempt where
  | raises (msg : String)
  | result (r : ExecResult)

/-- The inner retry loop of _execute_workflow_steps: try the step; on an
exception increment the counter and, while it is still within max_retries,
sleep and retry; once beyond, produce an ERROR result whose message carries
the attempt count.  fuel = max_retries − retry_count, the loop's own
variant. -/
def step_retry_loop (attempt : Nat → StepAttempt) (retry_count fuel : Nat) : ExecResult :=
  match attempt retry_count with
  | .result r => r
  | .raises m =>
    match fuel with
    | 0 => .error ("State execution failed after " ++ toString (retry_count + 1) ++
        " attempts: " ++ m)
    | f + 1 => step_retry_loop attempt (retry_count + 1) f

/-- One attempt of integration_manager.execute_action as seen by
WorkflowEngine._execute_action_with_retry: raise or return a JSON value. -/
inductive ActionAttempt where
  | raises (msg : String)
  | returns (v : JVal)

/-- The retry loop of WorkflowEngine._execute_action_with_retry.  Returns
the number of invocation attempts performed together with the value the
loop returns: a returned result is passed through immediately; an
exception is retried while retry_count stays within max_retries, after
which the error dict carrying the attempt count is returned.
fuel = max_retries − retry_count. -/
def action_retry_loop (attempt : Nat → ActionAttempt) (retry_count fuel : Nat) : Nat × JVal :=
  match attempt retry_count with
  | .returns v => (retry_count + 1, v)
  | .raises m =>
    match fuel with
    | 0 => (retry_count + 1, JVal.obj [("error", JVal.str ("Action failed after " ++
        toString (retry_count + 1) ++ " attempts: " ++ m))])
    | f + 1 => action_retry_loop attempt (retry_count + 1) f

/-- WorkflowEngine._execute_action_with_retry for a non-internal action:
attempt count starts at zero for every single invocation. -/
def execute_action_with_retry (st : WorkflowState) (attempt : Nat → ActionAttempt) :
    Nat × JVal :=
  action_retry_loop attempt 0 st.max_retries

/-- What the runner decides after classifying a step result. -/
inductive StepDecision where
  | goto (next : String)
  | completed
  | failed (msg : String)
deriving DecidableEq, Repr

/-- The transition ladder of _execute_workflow_steps (workflow_execution.py
lines 341-399): ERROR routes to the error transition or fails with the
carried message; TIMEOUT routes to a truthy on_timeout or fails; a
CONDITIONAL event routes to its transition, else default, else success,
else completes; SUCCESS routes to the success transition or completes. -/
def handle_execution_result (st : WorkflowState) (r : ExecResult) : StepDecision :=
  match r with
  | .error msg =>
    match st.transitions.lookup "error" with
    | some n => .goto n
    | none => .failed msg
  | .timeout =>
    if optTruthy st.on_timeout then .goto (st.on_timeout.getD "")
    else .failed "State execution timed out"
  | .conditional event =>
    match st.transitions.lookup event with
    | some n => .goto n
    | none =>
      match st.transitions.lookup "default" with
      | some n => .goto n
      | none =>
        match st.transitions.lookup "success" with
        | some n => .goto n
        | none => .completed
  | .success =>
    match st.transitions.lookup "success" with
    | some n => .goto n
    | none => .completed

/-- The slice of WorkflowContext the enhancer's runner loop reads and
writes.  The variables/results maps are owned by the action boundary
(execute_workflow_step), which the loop model takes as an oracle, and the
end_time stamp is covered by the lifecycle model below. -/
structure RunCtx where
  status : WorkflowStatus
  current_state : String
  state_history : List String
  error : Option String := none

/-- The context mutations of _mark_execution_failed as seen by the loop. -/
def RunCtx.mark_failed (c : RunCtx) (msg : String) : RunCtx :=
  { c with status := .failed, error := some msg }

/-- The context mutations of _mark_execution_completed as seen by the loop. -/
def RunCtx.mark_completed (c : RunCtx) : RunCtx :=
  { c with status := .completed }

/-- State lookup by name, as the generator expression with next(..., None). -/
def find_state (wf : WorkflowDefinition) (name : String) : Option WorkflowState :=
  wf.states.find? (fun s => s.name = name)

/-- The safety limit of _execute_workflow_steps. -/
def max_steps : Nat := 100

/-- WorkflowExecutionEnhancer._execute_workflow_steps: run states while the
status is RUNNING and the step count is below max_steps; a missing state
fails the execution; otherwise execute the state with retry, apply the
transition ladder, append any chosen next state to the history, bump the
step count and fail with the step-limit message when it reaches max_steps.
Returns the final context and steps_executed.
fuel = max_steps − step_count, the loop's own variant. -/
def execute_workflow_steps (wf : WorkflowDefinition)
    (attempt : WorkflowState → RunCtx → Nat → StepAttempt) :
    RunCtx → Nat → Nat → RunCtx × Nat
  | ctx, step_count, fuel =>
    if ctx.status ≠ .running then (ctx, step_count)
    else
      match fuel with
      | 0 => (ctx, step_count)
      | f + 1 =>
        match find_state wf ctx.current_state with
        | none => (ctx.mark_failed ("State \'" ++ ctx.current_state ++
            "\' not found in workflow"), step_count)
        | some st =>
          match handle_execution_result st (step_retry_loop (attempt st ctx) 0 st.max_retries) with
          | .failed msg => (ctx.mark_failed msg, step_count)
          | .completed => (ctx.mark_completed, step_count)
          | .goto n =>
            let ctx' := { ctx with
                          current_state := n
                          state_history := ctx.state_history ++ [n] }
            if step_count + 1 ≥ max_steps then
              (ctx'.mark_failed ("Workflow execution exceeded maximum steps (" ++
                toString max_steps ++ ")"), step_count + 1)
            else execute_workflow_steps wf attempt ctx' (step_count + 1) f

/-- Entry into the steps loop with a zero step count and full budget. -/
def run_workflow_steps (wf : WorkflowDefinition)
    (attempt : WorkflowState → RunCtx → Nat → StepAttempt) (ctx : RunCtx) :
    RunCtx × Nat :=
  execute_workflow_steps wf attempt ctx 0 max_steps

/-- Claim C2: after a CONDITIONAL outcome with event e, the ladder takes
transitions[e] when present; else transitions with key default when
present (even when a success transition also exists, as the precedence is
unconditional); else the success transition when present; else the
decision is completion — and a conditional outcome never yields a failure
decision. -/
theorem claim2_conditional_precedence :
    ∀ (st : WorkflowState) (e : String),
      (∀ t, st.transitions.lookup e = some t →
        handle_execution_result st (.conditional e) = .goto t) ∧
      (st.transitions.lookup e = none →
        ∀ t, st.transitions.lookup "default" = some t →
          handle_execution_result st (.conditional e) = .goto t) ∧
      (st.transitions.lookup e = none → st.transitions.lookup "default" = none →
        ∀ t, st.transitions.lookup "success" = some t →
          handle_execution_result st (.conditional e) = .goto t) ∧
      (st.transitions.lookup e = none → st.transitions.lookup "default" = none →
        st.transitions.lookup "success" = none →
        handle_execution_result st (.conditional e) = .completed) ∧
      (∀ msg, handle_execution_result st (.conditional e) ≠ .failed msg) := by
  intro st e
  refine ⟨?_, ?_, ?_, ?_, ?_⟩
  · intro t h; simp [handle_execution_result, h]
  · intro h t h2; simp [handle_execution_result, h, h2]
  · intro h h2 t h3; simp [handle_execution_result, h, h2, h3]
  · intro h h2 h3; simp [handle_execution_result, h, h2, h3]
  · intro msg
    cases h1 : st.transitions.lookup e with
    | some t => simp [handle_execution_result, h1]
    | none =>
      cases h2 : st.transitions.lookup "default" with
      | some t => simp [handle_execution_result, h1, h2]
      | none =>
        cases h3 : st.transitions.lookup "success" with
        | some t => simp [handle_execution_result, h1, h2, h3]
        | none => simp [handle_execution_result, h1, h2, h3]

/-- A conditional state with both a default and a success transition. -/
def condStateDX : WorkflowState :=
  { name := "c", action := { service := "internal", method := "conditional" },
    transitions := [("default", "X"), ("success", "Y")] }

/-- A conditional state with only a success transition. -/
def condStateY : WorkflowState :=
  { name := "c2", action := { service := "internal", method := "conditional" },
    transitions := [("success", "Y")] }

/-- Witness for claim C2: an unmatched event picks default over success,
and falls back to success when no default exists. -/
theorem claim2_conditional_precedence_witness :
    handle_execution_result condStateDX (.conditional "zzz") = .goto "X" ∧
    handle_execution_result condStateY (.conditional "zzz") = .goto "Y" :=
  ⟨(claim2_conditional_precedence condStateDX "zzz").2.1 (by rfl) "X" (by rfl),
   (claim2_conditional_precedence condStateY "zzz").2.2.1 (by rfl) (by rfl) "Y" (by rfl)⟩

/-- For an always-raising action the engine retry loop makes
rc + fuel + 1 attempts in total and returns the error dict naming that
count, from any starting counter rc with fuel = max_retries − rc. -/
theorem action_retry_loop_raises (msgs : Nat → String) :
    ∀ (fuel rc : Nat),
      action_retry_loop (fun k => .raises (msgs k)) rc fuel =
        (rc + fuel + 1, JVal.obj [("error", JVal.str ("Action failed after " ++
          toString (rc + fuel + 1) ++ " attempts: " ++ msgs (rc + fuel)))]) := by
  intro fuel
  induction fuel with
  | zero => intro rc; simp [action_retry_loop]
  | succ f ih =>
    intro rc
    have step : action_retry_loop (fun k => .raises (msgs k)) rc (f + 1) =
        action_retry_loop (fun k => .raises (msgs k)) (rc + 1) f := rfl
    rw [step, ih (rc + 1)]
    have h : rc + 1 + f = rc + (f + 1) := by omega
    rw [h]

/-- A state with max_retries 2, as in the claim's example. -/
def retryState : WorkflowState :=
  { name := "r", action := { service := "obs", method := "set_scene" }, max_retries := 2 }

/-- An error-shaped result returned (not raised) by the external call. -/
def errResult : JVal := JVal.obj [("error", JVal.str "boom")]

/-- Claim C3 (counterexample): with max_retries = 2 and an external call
that returns an error-shaped result on every attempt, the engine performs
exactly one invocation attempt (the result is passed straight through),
not the three attempts the claim asserts. -/
theorem claim3_counterexample :
    (execute_action_with_retry retryState (fun _ => .returns errResult)).1 = 1 ∧
    (execute_action_with_retry retryState (fun _ => .returns errResult)).2 = errResult ∧
    (1 : Nat) ≠ 3 :=
  ⟨rfl, rfl, by decide⟩

/-- Claim C3 (amended): a state whose action raises an exception on every
attempt performs exactly max_retries + 1 invocation attempts and yields
the error dict whose message carries that attempt count; any returned
result — error-shaped or not — ends the invocation after exactly one
attempt with the raw result passed through.  The counter starts at zero
for every invocation (first two conjuncts hold for every state and every
invocation independently), so it is never carried across states. -/
theorem claim3_retry_exhaustion :
    ∀ (st : WorkflowState) (msgs : Nat → String),
      (execute_action_with_retry st (fun k => .raises (msgs k))).1 = st.max_retries + 1 ∧
      (execute_action_with_retry st (fun k => .raises (msgs k))).2 =
        JVal.obj [("error", JVal.str ("Action failed after " ++
          toString (st.max_retries + 1) ++ " attempts: " ++ msgs st.max_retries))] ∧
      (∀ (v : JVal) (att : Nat → ActionAttempt), att 0 = .returns v →
        execute_action_with_retry st att = (1, v)) := by
  intro st msgs
  refine ⟨?_, ?_, ?_⟩
  · unfold execute_action_with_retry
    rw [action_retry_loop_raises msgs st.max_retries 0]
    simp
  · unfold execute_action_with_retry
    rw [action_retry_loop_raises msgs st.max_retries 0]
    simp
  · intro v att h0
    simp [execute_action_with_retry, action_retry_loop, h0]

/-- Witness for claim C3's amended theorem: three attempts for an action
raising with max_retries 2; one attempt for a returned result. -/
theorem claim3_retry_exhaustion_witness :
    (execute_action_with_retry retryState (fun _ => .raises "down")).1 = 3 ∧
    execute_action_with_retry retryState (fun _ => .returns JVal.null) = (1, JVal.null) :=
  ⟨(claim3_retry_exhaustion retryState (fun _ => "down")).1,
   (claim3_retry_exhaustion retryState (fun _ => "down")).2.2 JVal.null
     (fun _ => .returns JVal.null) rfl⟩

/-- Formalization of a transition graph that cycles with no terminal
branch: from every resolvable state, the executed step always decides a
transition, and the chosen target again resolves in the definition. -/
def AlwaysTransitionsInto (wf : WorkflowDefinition)
    (attempt : WorkflowState → RunCtx → Nat → StepAttempt) : Prop :=
  ∀ (name : String) (st : WorkflowState), find_state wf name = some st →
    ∀ ctx : RunCtx, ∃ n st',
      handle_execution_result st (step_retry_loop (attempt st ctx) 0 st.max_retries) =
        .goto n ∧ find_state wf n = some st'

/-- Under a never-terminating transition graph, the loop exhausts its step
budget and fails with the step-limit message, for any reachable loop entry
with the budget invariant step_count + fuel = max_steps. -/
theorem execute_steps_cap_aux (wf : WorkflowDefinition)
    (attempt : WorkflowState → RunCtx → Nat → StepAttempt)
    (H : AlwaysTransitionsInto wf attempt) :
    ∀ (fuel step_count : Nat) (ctx : RunCtx),
      step_count + fuel = max_steps → 1 ≤ fuel → ctx.status = .running →
      (∃ st, find_state wf ctx.current_state = some st) →
      (execute_workflow_steps wf attempt ctx step_count fuel).1.status = .failed ∧
      (execute_workflow_steps wf attempt ctx step_count fuel).1.error =
        some ("Workflow execution exceeded maximum steps (" ++ toString max_steps ++ ")") ∧
      (execute_workflow_steps wf attempt ctx step_count fuel).2 = max_steps := by
  intro fuel
  induction fuel with
  | zero =>
    intro sc ctx hsum hge
    exact absurd hge (by omega)
  | succ f ih =>
    intro sc ctx hsum hge hrun hfind
    obtain ⟨st, hst⟩ := hfind
    obtain ⟨n, st', hdec, hst'⟩ := H ctx.current_state st hst ctx
    rw [execute_workflow_steps]
    rw [if_neg (show ¬(ctx.status ≠ WorkflowStatus.running) by simp [hrun])]
    simp only [hst, hdec]
    by_cases hcap : sc + 1 ≥ max_steps
    · rw [if_pos hcap]
      refine ⟨rfl, rfl, ?_⟩
      simp only [max_steps] at hsum hcap ⊢
      omega
    · rw [if_neg hcap]
      exact ih (sc + 1)
        { ctx with current_state := n, state_history := ctx.state_history ++ [n] }
        (by omega) (by simp only [max_steps] at hsum hcap ⊢; omega) hrun ⟨st', hst'⟩

/-- Claim C4: for every workflow whose transition graph cycles with no
terminal branch (every resolvable state always decides a transition to a
resolvable state), the runner loop terminates at the configured cap of 100
steps: the execution is marked FAILED with the step-limit-exceeded
message, having executed exactly 100 steps. -/
theorem claim4_step_cap :
    ∀ (wf : WorkflowDefinition) (attempt : WorkflowState → RunCtx → Nat → StepAttempt)
      (ctx : RunCtx),
      AlwaysTransitionsInto wf attempt → ctx.status = .running →
      (∃ st, find_state wf ctx.current_state = some st) →
      (run_workflow_steps wf attempt ctx).1.status = .failed ∧
      (run_workflow_steps wf attempt ctx).1.error =
        some "Workflow execution exceeded maximum steps (100)" ∧
      (run_workflow_steps wf attempt ctx).2 = 100 := by
  intro wf attempt ctx H hrun hfind
  have h := execute_steps_cap_aux wf attempt H max_steps 0 ctx (by rfl) (by decide)
    hrun hfind
  have hmsg : ("Workflow execution exceeded maximum steps (" ++ toString max_steps ++ ")") =
      "Workflow execution exceeded maximum steps (100)" := rfl
  exact ⟨h.1, by rw [run_workflow_steps, ← hmsg]; exact h.2.1, h.2.2⟩

/-- First state of a two-state cycle. -/
def pingState : WorkflowState :=
  { name := "a", action := { service := "internal", method := "log" },
    transitions := [("success", "b")] }

/-- Second state of a two-state cycle. -/
def pongState : WorkflowState :=
  { name := "b", action := { service := "internal", method := "log" },
    transitions := [("success", "a")] }

/-- A workflow whose two states transition to each other forever. -/
def cycleWF : WorkflowDefinition :=
  { id := "cyc", name := "Cycle", initial_state := "a",
    states := [pingState, pongState] }

/-- An action boundary whose every step succeeds immediately. -/
def successAttempt : WorkflowState → RunCtx → Nat → StepAttempt :=
  fun _ _ _ => .result .success

/-- The context right after initialization on the cycle workflow. -/
def cycleStartCtx : RunCtx :=
  { status := .running, current_state := "a", state_history := ["a"] }

/-- The two-state cycle with an always-succeeding action always decides a
transition into a resolvable state. -/
theorem cycle_always_transitions : AlwaysTransitionsInto cycleWF successAttempt := by
  intro name st h ctx
  by_cases h1 : name = "a"
  · subst h1
    have hst : st = pingState := by
      have heq : find_state cycleWF "a" = some pingState := rfl
      rw [heq] at h
      exact (Option.some_inj.mp h).symm
    subst hst
    exact ⟨"b", pongState, rfl, rfl⟩
  · by_cases h2 : name = "b"
    · subst h2
      have hst : st = pongState := by
        have heq : find_state cycleWF "b" = some pongState := rfl
        rw [heq] at h
        exact (Option.some_inj.mp h).symm
      subst hst
      exact ⟨"a", pingState, rfl, rfl⟩
    · exfalso
      have hnone : find_state cycleWF name = none := by
        simp only [find_state, cycleWF, List.find?, pingState, pongState]
        rw [decide_eq_false (fun hh => h1 hh.symm),
          decide_eq_false (fun hh => h2 hh.symm)]
      rw [hnone] at h
      cases h

/-- Witness for claim C4: the two-state cycle fails at exactly 100 steps
with the step-limit message. -/
theorem claim4_step_cap_witness :
    (run_workflow_steps cycleWF successAttempt cycleStartCtx).1.status =
      WorkflowStatus.failed ∧
    (run_workflow_steps cycleWF successAttempt cycleStartCtx).1.error =
      some "Workflow execution exceeded maximum steps (100)" ∧
    (run_workflow_steps cycleWF successAttempt cycleStartCtx).2 = 100 :=
  claim4_step_cap cycleWF successAttempt cycleStartCtx cycle_always_transitions rfl
    ⟨pingState, rfl⟩


/-- WorkflowContext model (workflow_engine.py): the per-execution mutable
record.  Timestamps are abstract Nat instants supplied by the caller in
place of datetime.now(). -/
structure WorkflowContext where
  workflow_id : String
  execution_id : String
  trigger : Option String := none
  status : WorkflowStatus := .not_started
  current_state : Option String := none
  state_history : List String := []
  start_time : Option Nat := none
  end_time : Option Nat := none
  «variables» : List (String × JVal) := []
  results : List (String × JVal) := []
  error : Option String := none

/-- The execution-facing mutable state of WorkflowEngine: the
active-execution table and the set of execution ids owning a pending
timeout task. -/
structure ActiveState where
  active_workflows : List (String × WorkflowContext) := []
  timeout_tasks : List String := []

/-- WorkflowEngine._mark_execution_failed: set FAILED, record the error,
stamp end_time, and cancel any pending timeout task; a no-op for an
unknown execution id.  The context mutations are shared verbatim with
WorkflowExecutionEnhancer._mark_execution_failed. -/
def mark_execution_failed (s : ActiveState) (execution_id error_message : String)
    (now : Nat) : ActiveState :=
  match s.active_workflows.lookup execution_id with
  | none => s
  | some c =>
    let c' := { c with
                status := WorkflowStatus.failed
                error := some error_message
                end_time := some now }
    { active_workflows := dictInsert execution_id c' s.active_workflows
      timeout_tasks := s.timeout_tasks.filter (fun i => i ≠ execution_id) }

/-- WorkflowEngine._mark_execution_completed: set COMPLETED and stamp
end_time; a no-op for an unknown execution id. -/
def mark_execution_completed (s : ActiveState) (execution_id : String)
    (now : Nat) : ActiveState :=
  match s.active_workflows.lookup execution_id with
  | none => s
  | some c =>
    let c' := { c with
                status := WorkflowStatus.completed
                end_time := some now }
    { s with active_workflows := dictInsert execution_id c' s.active_workflows }

/-- WorkflowEngine.cancel_workflow: false for an unknown id or a status
outside RUNNING/PAUSED (leaving everything untouched); otherwise set
CANCELLED, stamp end_time, cancel any pending timeout task, return true. -/
def cancel_workflow (s : ActiveState) (execution_id : String) (now : Nat) :
    Bool × ActiveState :=
  match s.active_workflows.lookup execution_id with
  | none => (false, s)
  | some c =>
    if c.status = .running ∨ c.status = .paused then
      let c' := { c with
                  status := WorkflowStatus.cancelled
                  end_time := some now }
      (true,
       { active_workflows := dictInsert execution_id c' s.active_workflows
         timeout_tasks := s.timeout_tasks.filter (fun i => i ≠ execution_id) })
    else (false, s)

/-- WorkflowEngine.pause_workflow: valid only from RUNNING; sets PAUSED and
cancels any pending timeout task. -/
def pause_workflow (s : ActiveState) (execution_id : String) : Bool × ActiveState :=
  match s.active_workflows.lookup execution_id with
  | none => (false, s)
  | some c =>
    if c.status = .running then
      let c' := { c with status := WorkflowStatus.paused }
      (true,
       { active_workflows := dictInsert execution_id c' s.active_workflows
         timeout_tasks := s.timeout_tasks.filter (fun i => i ≠ execution_id) })
    else (false, s)

/-- WorkflowEngine.resume_workflow: valid only from PAUSED; sets RUNNING and
spawns a fresh _execute_workflow task for the execution (whose entry is
modelled by execute_workflow_init below). -/
def resume_workflow (s : ActiveState) (execution_id : String) : Bool × ActiveState :=
  match s.active_workflows.lookup execution_id with
  | none => (false, s)
  | some c =>
    if c.status = .paused then
      let c' := { c with status := WorkflowStatus.running }
      (true, { s with active_workflows := dictInsert execution_id c' s.active_workflows })
    else (false, s)

/-- The initialization every WorkflowEngine._execute_workflow run performs
unconditionally before entering its loop (lines 287-289): status RUNNING,
current_state reset to the definition's initial_state, and state_history
reset to the singleton initial_state. -/
def execute_workflow_init (wf : WorkflowDefinition) (c : WorkflowContext) :
    WorkflowContext :=
  { c with
    status := WorkflowStatus.running
    current_state := some wf.initial_state
    state_history := [wf.initial_state] }

/-- The observable effect of one wake-up of
WorkflowEngine._handle_state_timeout: the (possibly rewritten) context of
the execution, whether the execution was marked failed, and whether any
cancellation was requested of the in-flight action task.  In the source,
when the guard holds and on_timeout is truthy the handler merely returns
(no mutation, no cancellation request of any task); only the falsy
on_timeout branch marks the execution failed. -/
structure TimeoutEffect where
  context : Option WorkflowContext
  marks_failed : Bool
  cancels_action : Bool

/-- WorkflowEngine._handle_state_timeout after its sleep, applied to the
execution's current context (none when the execution id is unknown). -/
def handle_state_timeout (ctx : Option WorkflowContext) (state : WorkflowState)
    (now : Nat) : TimeoutEffect :=
  match ctx with
  | none => { context := none, marks_failed := false, cancels_action := false }
  | some c =>
    if c.status = .running ∧ c.current_state = some state.name then
      if optTruthy state.on_timeout then
        { context := some c, marks_failed := false, cancels_action := false }
      else
        let c' := { c with
                    status := WorkflowStatus.failed
                    error := some ("State \'" ++ state.name ++ "\' timed out")
                    end_time := some now }
        { context := some c', marks_failed := true, cancels_action := false }
    else { context := some c, marks_failed := false, cancels_action := false }

/-- A state with a timeout and an on_timeout target, whose action never
completes within the deadline. -/
def timeoutStateA : WorkflowState :=
  { name := "A", action := { service := "obs", method := "never_returns" },
    timeout_seconds := some 1, on_timeout := some "C" }

/-- A running execution sitting on state A. -/
def runningCtxA : WorkflowContext :=
  { workflow_id := "tw", execution_id := "e1", status := .running,
    current_state := some "A", state_history := ["A"], start_time := some 0 }

/-- Claim C5 (code bug evidence): when the timeout fires for a running
execution still on state A and on_timeout is set, the handler performs no
mutation at all and requests no cancellation of the in-flight action, so
nothing ever transitions the execution to the on_timeout state: the
runner stays awaiting the never-completing action. -/
theorem claim5_timeout_handler_is_noop :
    handle_state_timeout (some runningCtxA) timeoutStateA 5 =
      { context := some runningCtxA, marks_failed := false, cancels_action := false } :=
  rfl

/-- Claim C7: cancel returns true exactly when the execution exists with
status RUNNING or PAUSED; a false return leaves the whole engine state
(hence every context field) unchanged; a true return rewrites exactly the
status and end_time of that execution and drops its pending timeout
task. -/
theorem claim7_cancel :
    ∀ (s : ActiveState) (eid : String) (now : Nat),
      ((cancel_workflow s eid now).1 = true ↔
        ∃ c, s.active_workflows.lookup eid = some c ∧
          (c.status = .running ∨ c.status = .paused)) ∧
      ((cancel_workflow s eid now).1 = false → (cancel_workflow s eid now).2 = s) ∧
      (∀ c, s.active_workflows.lookup eid = some c →
        (c.status = .running ∨ c.status = .paused) →
        (cancel_workflow s eid now).2.active_workflows.lookup eid =
          some { c with status := WorkflowStatus.cancelled, end_time := some now } ∧
        eid ∉ (cancel_workflow s eid now).2.timeout_tasks) := by
  intro s eid now
  refine ⟨⟨?_, ?_⟩, ?_, ?_⟩
  · intro h
    cases hl : s.active_workflows.lookup eid with
    | none => simp [cancel_workflow, hl] at h
    | some c =>
      by_cases hs : c.status = .running ∨ c.status = .paused
      · exact ⟨c, rfl, hs⟩
      · simp [cancel_workflow, hl, hs] at h
  · rintro ⟨c, hl, hs⟩
    simp [cancel_workflow, hl, hs]
  · intro h
    cases hl : s.active_workflows.lookup eid with
    | none => simp [cancel_workflow, hl]
    | some c =>
      by_cases hs : c.status = .running ∨ c.status = .paused
      · simp [cancel_workflow, hl, hs] at h
      · simp [cancel_workflow, hl, hs]
  · intro c hl hs
    constructor
    · simp only [cancel_workflow, hl, if_pos hs]
      exact dictInsert_lookup_self _ _ _
    · simp only [cancel_workflow, hl, if_pos hs]
      intro hmem
      rcases List.mem_filter.mp hmem with ⟨_, hne⟩
      simp at hne

/-- An engine table holding one running execution with a pending timeout
task. -/
def runningTable : ActiveState :=
  { active_workflows := [("e1", runningCtxA)], timeout_tasks := ["e1"] }

/-- A completed execution. -/
def completedCtx : WorkflowContext :=
  { workflow_id := "tw", execution_id := "e2", status := .completed }

/-- An engine table holding one completed execution. -/
def completedTable : ActiveState :=
  { active_workflows := [("e2", completedCtx)] }

/-- Witness for claim C7: cancelling the running execution succeeds;
cancelling the completed one returns false and changes nothing. -/
theorem claim7_cancel_witness :
    (cancel_workflow runningTable "e1" 7).1 = true ∧
    (cancel_workflow completedTable "e2" 7).1 = false ∧
    (cancel_workflow completedTable "e2" 7).2 = completedTable :=
  ⟨(claim7_cancel runningTable "e1" 7).1.mpr ⟨runningCtxA, rfl, Or.inl rfl⟩,
   rfl,
   (claim7_cancel completedTable "e2" 7).2.1 rfl⟩

/-- First state of a two-state linear workflow. -/
def stA : WorkflowState :=
  { name := "A", action := { service := "internal", method := "log" },
    transitions := [("success", "B")] }

/-- Terminal second state of the two-state linear workflow. -/
def stB : WorkflowState :=
  { name := "B", action := { service := "internal", method := "log" } }

/-- The two-state linear workflow A then B. -/
def wfAB : WorkflowDefinition :=
  { id := "ab", name := "AB", initial_state := "A", states := [stA, stB] }

/-- A paused execution of wfAB sitting on state B with history [A, B]. -/
def pausedCtxB : WorkflowContext :=
  { workflow_id := "ab", execution_id := "e8", status := .paused,
    current_state := some "B", state_history := ["A", "B"] }

/-- An engine table holding the paused execution. -/
def pausedTable : ActiveState :=
  { active_workflows := [("e8", pausedCtxB)] }

/-- Claim C8 (code bug evidence): resume on the paused execution returns
true and sets RUNNING, but the engine _execute_workflow task it spawns
reinitializes unconditionally: current_state becomes the definition's
initial state A rather than the paused B, and state_history is reset to
[A] rather than being preserved and appended to. -/
theorem claim8_resume_restarts :
    (resume_workflow pausedTable "e8").1 = true ∧
    (resume_workflow pausedTable "e8").2.active_workflows.lookup "e8" =
      some { pausedCtxB with status := WorkflowStatus.running } ∧
    (execute_workflow_init wfAB
      { pausedCtxB with status := WorkflowStatus.running }).current_state = some "A" ∧
    (execute_workflow_init wfAB
      { pausedCtxB with status := WorkflowStatus.running }).state_history = ["A"] ∧
    some "A" ≠ pausedCtxB.current_state ∧
    (["A"] : List String) ≠ pausedCtxB.state_history := by
  refine ⟨rfl, rfl, rfl, rfl, by decide, by decide⟩

/-- Claim C9: marking an execution failed sets status FAILED, records the
cause, stamps end_time, and leaves every other context field — results,
state_history, variables, current_state, start_time, ids, trigger — and
every other execution's context unchanged. -/
theorem claim9_mark_failed_frame :
    ∀ (s : ActiveState) (eid msg : String) (now : Nat) (c : WorkflowContext),
      s.active_workflows.lookup eid = some c →
      (∃ c', (mark_execution_failed s eid msg now).active_workflows.lookup eid = some c' ∧
        c'.status = WorkflowStatus.failed ∧ c'.error = some msg ∧
        c'.end_time = some now ∧ c'.results = c.results ∧
        c'.state_history = c.state_history ∧ c'.«variables» = c.«variables» ∧
        c'.current_state = c.current_state ∧ c'.start_time = c.start_time ∧
        c'.workflow_id = c.workflow_id ∧ c'.execution_id = c.execution_id ∧
        c'.trigger = c.trigger) ∧
      (∀ eid', eid' ≠ eid →
        (mark_execution_failed s eid msg now).active_workflows.lookup eid' =
          s.active_workflows.lookup eid') := by
  intro s eid msg now c hl
  constructor
  · refine ⟨{ c with status := WorkflowStatus.failed, error := some msg, end_time := some now }, ?_, rfl, rfl, rfl, rfl, rfl, rfl, rfl, rfl, rfl, rfl, rfl⟩
    simp only [mark_execution_failed, hl]
    exact dictInsert_lookup_self _ _ _
  · intro eid' hne
    simp only [mark_execution_failed, hl]
    exact dictInsert_lookup_other _ hne _

/-- Witness for claim C9: failing the running execution keeps its recorded
results and history while flipping only status, error and end_time. -/
theorem claim9_mark_failed_frame_witness :
    ∃ c', (mark_execution_failed runningTable "e1" "boom" 9).active_workflows.lookup "e1" =
        some c' ∧
      c'.status = WorkflowStatus.failed ∧ c'.results = runningCtxA.results ∧
      c'.state_history = runningCtxA.state_history := by
  obtain ⟨⟨c', h1, h2, h3, h4, h5, h6, h7, h8, h9, h10, h11, h12⟩, hframe⟩ :=
    claim9_mark_failed_frame runningTable "e1" "boom" 9 runningCtxA rfl
  exact ⟨c', h1, h2, h5, h6⟩

/-- How a resolved value is embedded in the output text: json.dumps for a
dict or list, Python str() for a scalar. -/
def hexDigit (n : Nat) : Char :=
  if n < 10 then Char.ofNat (48 + n) else Char.ofNat (87 + n)

/-- One character of json.dumps string escaping (ensure_ascii). -/
def escapeChar (c : Char) : List Char :=
  if c = '"' then ['\\', '"']
  else if c = '\\' then ['\\', '\\']
  else if c = '\n' then ['\\', 'n']
  else if c = '\t' then ['\\', 't']
  else if c = '\r' then ['\\', 'r']
  else if c.toNat = 8 then ['\\', 'b']
  else if c.toNat = 12 then ['\\', 'f']
  else if c.toNat < 32 || c.toNat ≥ 127 then
    ['\\', 'u', hexDigit (c.toNat / 4096 % 16), hexDigit (c.toNat / 256 % 16),
     hexDigit (c.toNat / 16 % 16), hexDigit (c.toNat % 16)]
  else [c]

/-- json.dumps string escaping over a whole string. -/
def escapeString (s : String) : String :=
  String.mk (s.data.foldr (fun c acc => escapeChar c ++ acc) [])

mutual

/-- json.dumps with Python's default separators (", " and ": "). -/
def dumps : JVal → String
  | .null => "null"
  | .bool true => "true"
  | .bool false => "false"
  | .num n => toString n
  | .str s => "\"" ++ escapeString s ++ "\""
  | .arr xs => "[" ++ dumpsList xs ++ "]"
  | .obj fs => "\x7b" ++ dumpsFields fs ++ "\x7d"

/-- Comma-joined dumps of array elements. -/
def dumpsList : List JVal → String
  | [] => ""
  | [x] => dumps x
  | x :: y :: xs => dumps x ++ ", " ++ dumpsList (y :: xs)

/-- Comma-joined dumps of object fields. -/
def dumpsFields : List (String × JVal) → String
  | [] => ""
  | [(k, v)] => "\"" ++ escapeString k ++ "\": " ++ dumps v
  | (k, v) :: f :: fs =>
    "\"" ++ escapeString k ++ "\": " ++ dumps v ++ ", " ++ dumpsFields (f :: fs)

end

/-- A resolved composite value is embedded as its json.dumps encoding, a
scalar as its Python str() form. -/
def renderValue : JVal → String
  | .obj fs => dumps (.obj fs)
  | .arr xs => dumps (.arr xs)
  | .str s => s
  | .num n => toString n
  | .bool true => "True"
  | .bool false => "False"
  | .null => "None"

/-- A character matched by the token pattern's character class: a word
character or a dot. -/
def isWordOrDot (c : Char) : Bool :=
  c.isAlpha || c.isDigit || c = '_' || c = '.'

/-- re.sub over the serialized text with the token pattern: at a dollar
sign followed by an opening brace, a non-empty maximal run of word/dot
characters and a closing brace form a token handed to the replacement
function; any failed match advances one character, like the regex engine.
fuel bounds the scan by the text length. -/
def substAux (repl : String → String) : Nat → List Char → List Char
  | 0, cs => cs
  | _ + 1, [] => []
  | fuel + 1, c :: cs =>
    if c = '$' then
      match cs with
      | '\x7b' :: rest =>
        let run := rest.takeWhile isWordOrDot
        let remainder := rest.dropWhile isWordOrDot
        match remainder with
        | '\x7d' :: tail =>
          if run.isEmpty then c :: substAux repl fuel cs
          else (repl (String.mk run)).data ++ substAux repl fuel tail
        | _ => c :: substAux repl fuel cs
      | _ => c :: substAux repl fuel cs
    else c :: substAux repl fuel cs

/-- Whole-text token substitution. -/
def substituteTokens (repl : String → String) (s : String) : String :=
  String.mk (substAux repl s.data.length s.data)

/-- The nested walk through the remaining path segments: descend while the
value is a dict containing the segment, otherwise the walk fails. -/
def walkPath : JVal → List String → Option JVal
  | v, [] => some v
  | .obj fields, p :: ps =>
    match fields.lookup p with
    | some v => walkPath v ps
    | none => none
  | _, _ :: _ => none

/-- Python str.split on a single dot separator: accumulate the current
segment and cut at every dot (empty segments included). -/
def splitDotAux : List Char → List Char → List String
  | [], acc => [String.mk acc.reverse]
  | c :: cs, acc =>
    if c = '.' then String.mk acc.reverse :: splitDotAux cs []
    else splitDotAux cs (c :: acc)

/-- var_path.split of the source, specialized to the dot separator. -/
def splitOnDot (s : String) : List String := splitDotAux s.data []

/-- The wall-clock values the reserved namespaces produce at substitution
time (datetime.now() and uuid.uuid4() threaded in as inputs). -/
structure LiveVals where
  date : String
  time : String
  timestamp : String
  uuid : String

/-- replace_variable of WorkflowExecutor._process_parameters
(workflow_execution.py): date, time, timestamp and uuid are live; else the
head segment is looked up in variables and the rest walked (a failed walk
keeps the token, with no fallback to results); else the same against
results; else the token stays verbatim. -/
def replace_variable (live : LiveVals) (vars results : List (String × JVal))
    (var_path : String) : String :=
  let parts := splitOnDot var_path
  let head := parts.headD ""
  if head = "date" then live.date
  else if head = "time" then live.time
  else if head = "timestamp" then live.timestamp
  else if head = "uuid" then live.uuid
  else
    match vars.lookup head with
    | some v =>
      match walkPath v parts.tail with
      | some value => renderValue value
      | none => "$\x7b" ++ var_path ++ "\x7d"
    | none =>
      match results.lookup head with
      | some v =>
        match walkPath v parts.tail with
        | some value => renderValue value
        | none => "$\x7b" ++ var_path ++ "\x7d"
      | none => "$\x7b" ++ var_path ++ "\x7d"

/-- replace_variable of WorkflowEngine._process_variables
(workflow_engine.py): identical except that it has no uuid branch, so a
uuid token falls through to the variables/results lookups. -/
def replace_variable_engine (live : LiveVals) (vars results : List (String × JVal))
    (var_path : String) : String :=
  let parts := splitOnDot var_path
  let head := parts.headD ""
  if head = "date" then live.date
  else if head = "time" then live.time
  else if head = "timestamp" then live.timestamp
  else
    match vars.lookup head with
    | some v =>
      match walkPath v parts.tail with
      | some value => renderValue value
      | none => "$\x7b" ++ var_path ++ "\x7d"
    | none =>
      match results.lookup head with
      | some v =>
        match walkPath v parts.tail with
        | some value => renderValue value
        | none => "$\x7b" ++ var_path ++ "\x7d"
      | none => "$\x7b" ++ var_path ++ "\x7d"

/-- JSON whitespace. -/
def isJsonWS (c : Char) : Bool := c = ' ' || c = '\t' || c = '\n' || c = '\r'

/-- Skip leading JSON whitespace. -/
def skipWS : List Char → List Char
  | [] => []
  | c :: cs => if isJsonWS c then skipWS cs else c :: cs

/-- One hex digit of a \u escape. -/
def parseHex (c : Char) : Option Nat :=
  if c.isDigit then some (c.toNat - 48)
  else if 'a' ≤ c && c ≤ 'f' then some (c.toNat - 87)
  else if 'A' ≤ c && c ≤ 'F' then some (c.toNat - 55)
  else none

/-- Parse a JSON string body after the opening quote, handling escapes, up
to and including the closing quote.  fuel bounds the scan by the input
length. -/
def parseStringBody : Nat → List Char → Option (String × List Char)
  | 0, _ => none
  | _ + 1, [] => none
  | fuel + 1, c :: cs =>
    if c = '"' then some ("", cs)
    else if c = '\\' then
      match cs with
      | [] => none
      | e :: cs2 =>
        let esc : Option (Char × List Char) :=
          if e = '"' then some ('"', cs2)
          else if e = '\\' then some ('\\', cs2)
          else if e = '/' then some ('/', cs2)
          else if e = 'n' then some ('\n', cs2)
          else if e = 't' then some ('\t', cs2)
          else if e = 'r' then some ('\r', cs2)
          else if e = 'b' then some (Char.ofNat 8, cs2)
          else if e = 'f' then some (Char.ofNat 12, cs2)
          else if e = 'u' then
            match cs2 with
            | h1 :: h2 :: h3 :: h4 :: cs3 =>
              match parseHex h1, parseHex h2, parseHex h3, parseHex h4 with
              | some a, some b, some c3, some d =>
                some (Char.ofNat (a * 4096 + b * 256 + c3 * 16 + d), cs3)
              | _, _, _, _ => none
            | _ => none
          else none
        match esc with
        | some (ch, rest) =>
          match parseStringBody fuel rest with
          | some (s, rest2) => some (String.mk (ch :: s.data), rest2)
          | none => none
        | none => none
    else
      match parseStringBody fuel cs with
      | some (s, rest) => some (String.mk (c :: s.data), rest)
      | none => none

/-- Digits to a natural number. -/
def digitsToNat (ds : List Char) : Nat :=
  ds.foldl (fun acc c => acc * 10 + (c.toNat - 48)) 0

/-- Python dict construction from parsed key-value pairs in order: a later
duplicate key overwrites the value at the key's first position. -/
def objFromPairs (pairs : List (String × JVal)) : List (String × JVal) :=
  pairs.foldl (fun acc p => dictInsert p.1 p.2 acc) []

mutual

/-- Recursive-descent json.loads, integers only (a float fails the parse;
no float flows through the modelled pipeline).  fuel bounds the recursion
by the input length. -/
def parseValue : Nat → List Char → Option (JVal × List Char)
  | 0, _ => none
  | fuel + 1, cs =>
    match skipWS cs with
    | [] => none
    | c :: rest =>
      if c = '"' then
        match parseStringBody (rest.length + 1) rest with
        | some (s, rest2) => some (.str s, rest2)
        | none => none
      else if c = 't' then
        match rest with
        | 'r' :: 'u' :: 'e' :: r2 => some (.bool true, r2)
        | _ => none
      else if c = 'f' then
        match rest with
        | 'a' :: 'l' :: 's' :: 'e' :: r2 => some (.bool false, r2)
        | _ => none
      else if c = 'n' then
        match rest with
        | 'u' :: 'l' :: 'l' :: r2 => some (.null, r2)
        | _ => none
      else if c = '[' then
        match skipWS rest with
        | ']' :: r2 => some (.arr [], r2)
        | r2 =>
          match parseArrayItems fuel r2 with
          | some (vs, r3) => some (.arr vs, r3)
          | none => none
      else if c = '\x7b' then
        match skipWS rest with
        | '\x7d' :: r2 => some (.obj [], r2)
        | r2 =>
          match parseObjectItems fuel r2 with
          | some (fs, r3) => some (.obj (objFromPairs fs), r3)
          | none => none
      else if c = '-' || c.isDigit then
        let csnum := if c = '-' then rest else c :: rest
        let ds := csnum.takeWhile Char.isDigit
        let rem := csnum.dropWhile Char.isDigit
        if ds.isEmpty then none
        else
          match rem with
          | '.' :: _ => none
          | 'e' :: _ => none
          | 'E' :: _ => none
          | _ => some (.num (if c = '-' then -(digitsToNat ds : Int)
              else (digitsToNat ds : Int)), rem)
      else none

/-- Comma-separated array items up to the closing bracket. -/
def parseArrayItems : Nat → List Char → Option (List JVal × List Char)
  | 0, _ => none
  | fuel + 1, cs =>
    match parseValue fuel cs with
    | none => none
    | some (v, rest) =>
      match skipWS rest with
      | ',' :: r2 =>
        match parseArrayItems fuel r2 with
        | some (vs, r3) => some (v :: vs, r3)
        | none => none
      | ']' :: r2 => some ([v], r2)
      | _ => none

/-- Comma-separated object entries up to the closing brace. -/
def parseObjectItems : Nat → List Char → Option (List (String × JVal) × List Char)
  | 0, _ => none
  | fuel + 1, cs =>
    match skipWS cs with
    | '"' :: rest =>
      match parseStringBody (rest.length + 1) rest with
      | none => none
      | some (k, r2) =>
        match skipWS r2 with
        | ':' :: r3 =>
          match parseValue fuel r3 with
          | none => none
          | some (v, r4) =>
            match skipWS r4 with
            | ',' :: r5 =>
              match parseObjectItems fuel r5 with
              | some (fs, r6) => some ((k, v) :: fs, r6)
              | none => none
            | '\x7d' :: r5 => some ([(k, v)], r5)
            | _ => none
        | _ => none
    | _ => none

end

/-- json.loads: the whole text must parse as one value with only trailing
whitespace. -/
def loads (s : String) : Option JVal :=
  match parseValue (s.length + 1) s.data with
  | none => none
  | some (v, rest) => if (skipWS rest).isEmpty then some v else none

/-- WorkflowExecutor._process_parameters: empty params short-circuit to an
empty dict; otherwise the whole structure is serialized, every token is
substituted, and the text is re-parsed (a substitution that breaks the
JSON yields none, where the source raises out of the helper). -/
def process_parameters (live : LiveVals) (params vars results : List (String × JVal)) :
    Option JVal :=
  if params.isEmpty then some (.obj [])
  else loads (substituteTokens (replace_variable live vars results) (dumps (.obj params)))

/-- WorkflowEngine._process_variables: the engine-side twin of
_process_parameters, using the engine's replace_variable without a uuid
branch. -/
def process_variables (live : LiveVals) (params vars results : List (String × JVal)) :
    Option JVal :=
  if params.isEmpty then some (.obj [])
  else loads (substituteTokens (replace_variable_engine live vars results)
    (dumps (.obj params)))

/-- A fixed choice of wall-clock values for concrete runs. -/
def live0 : LiveVals :=
  { date := "2026-10-12", time := "12:00:00",
    timestamp := "2026-10-12T12:00:00", uuid := "u-123" }

/-- Claim C6 (counterexample): the engine-side resolver has no uuid
namespace, so with empty variables and results the token stays the literal
uuid token instead of becoming the fresh uuid value the claim asserts. -/
theorem claim6_counterexample :
    (process_variables live0 [("t", .str "$\x7buuid\x7d")] [] []).map dumps =
      some "\x7b\"t\": \"$\x7buuid\x7d\"\x7d" ∧
    (process_variables live0 [("t", .str "$\x7buuid\x7d")] [] []).map dumps ≠
      some (dumps (.obj [("t", .str live0.uuid)])) := by
  constructor
  · rfl
  · decide

/-- Claim C6 (amended): in the executor's parameter processor the claim
holds in full — the four reserved namespaces date, time, timestamp and
uuid are live; otherwise the first path segment is looked up in variables
with the remaining segments walked through nested maps, else the same
lookup runs against results, and a missing namespace or missing path
segment leaves the token verbatim — as shown by the token-level precedence
and the whole-pipeline examples; the engine-side resolver differs in that
uuid is not reserved there, so an unresolvable uuid token is left
verbatim. -/
theorem claim6_resolution :
    (∀ (live : LiveVals) (vars results : List (String × JVal)),
      replace_variable live vars results "date" = live.date ∧
      replace_variable live vars results "time" = live.time ∧
      replace_variable live vars results "timestamp" = live.timestamp ∧
      replace_variable live vars results "uuid" = live.uuid) ∧
    (∀ (live : LiveVals) (vars results : List (String × JVal)) (path p : String)
        (ps : List String),
      splitOnDot path = p :: ps →
      p ≠ "date" → p ≠ "time" → p ≠ "timestamp" → p ≠ "uuid" →
      (∀ v, vars.lookup p = some v →
        replace_variable live vars results path =
          (match walkPath v ps with
           | some value => renderValue value
           | none => "$\x7b" ++ path ++ "\x7d")) ∧
      (vars.lookup p = none → ∀ v, results.lookup p = some v →
        replace_variable live vars results path =
          (match walkPath v ps with
           | some value => renderValue value
           | none => "$\x7b" ++ path ++ "\x7d")) ∧
      (vars.lookup p = none → results.lookup p = none →
        replace_variable live vars results path = "$\x7b" ++ path ++ "\x7d")) ∧
    (∀ live : LiveVals,
      process_parameters live [("t", .str "$\x7btitle\x7d World")]
        [("title", .str "Hello")] [] = some (.obj [("t", .str "Hello World")])) ∧
    (∀ live : LiveVals,
      process_parameters live [("u", .str "$\x7bmissing.x\x7d")] [] [] =
        some (.obj [("u", .str "$\x7bmissing.x\x7d")])) ∧
    (∀ live : LiveVals, replace_variable_engine live [] [] "uuid" = "$\x7buuid\x7d") := by
  refine ⟨?_, ?_, ?_, ?_, ?_⟩
  · intro live vars results
    exact ⟨rfl, rfl, rfl, rfl⟩
  · intro live vars results path p ps hsplit hpd hpt hpts hpu
    refine ⟨?_, ?_, ?_⟩
    · intro v hv
      simp only [replace_variable, hsplit, List.headD, List.tail_cons]
      rw [if_neg hpd, if_neg hpt, if_neg hpts, if_neg hpu, hv]
    · intro hnone v hv
      simp only [replace_variable, hsplit, List.headD, List.tail_cons]
      rw [if_neg hpd, if_neg hpt, if_neg hpts, if_neg hpu, hnone, hv]
    · intro hnone hnone2
      simp only [replace_variable, hsplit, List.headD, List.tail_cons]
      rw [if_neg hpd, if_neg hpt, if_neg hpts, if_neg hpu, hnone, hnone2]
  · intro live
    rfl
  · intro live
    rfl
  · intro live
    rfl

/-- Witness for claim C6's amended theorem: the precedence conjunct applied
at a variables hit and at a fully missing token. -/
theorem claim6_resolution_witness :
    replace_variable live0 [("title", JVal.str "Hello")] [] "title" = "Hello" ∧
    replace_variable live0 [] [] "missing" = "$\x7bmissing\x7d" := by
  constructor
  · exact (claim6_resolution.2.1 live0 [("title", JVal.str "Hello")] [] "title" "title"
      [] rfl (by decide) (by decide) (by decide) (by decide)).1 (JVal.str "Hello") rfl
  · exact (claim6_resolution.2.1 live0 [] [] "missing" "missing" [] rfl (by decide)
      (by decide) (by decide) (by decide)).2.2 rfl rfl
